import Mathlib

/-!
Verification development for the Meduroam clinical-consultation workflow.

The definitions below are a shallow embedding of the Python sources:
`src/models/data_models.py`, `src/roles/permissions.py`,
`src/workflows/workflow_engine.py`, `src/workflows/student_decision_logic.py`
and `src/decision_engine/care_routing.py`.

Modelling conventions:
- Python in-place mutation with possible exceptions is embedded as a function
  returning the pair (object state after the call, optional raised error):
  when an exception is raised, the first component is the state the mutated
  object was left in at the moment of the raise.
- `datetime.now()` is threaded as an explicit `now : Nat` clock argument;
  timestamp fields hold these clock values.
- Python floats are embedded as `ℚ`; every numeric value reachable in the
  scoring and wait-time code is an exact small rational, so IEEE rounding
  never distinguishes the two on the inputs considered here.
- Python string truthiness (`not s` true for `None` and `""`) is embedded by
  `pyTruthyStr`.
-/

/-- WorkflowState enum from data_models.py. -/
inductive WorkflowState where
  | INITIAL
  | AI_PROCESSING
  | STUDENT_REVIEW
  | PATIENT_COMMUNICATION
  | PATIENT_QUESTIONS
  | PATIENT_ACCEPTED
  | RESIDENT_ESCALATION
  | FINAL_APPROVED
  | CARE_ROUTING
  | COMPLETE
deriving DecidableEq

/-- UserRole enum from data_models.py. -/
inductive UserRole where
  | PATIENT
  | MEDICAL_STUDENT
  | RESIDENT
  | ATTENDING_PHYSICIAN
  | ADMIN
deriving DecidableEq

/-- UrgencyLevel enum from data_models.py. -/
inductive UrgencyLevel where
  | ROUTINE
  | URGENT
  | EMERGENCY
deriving DecidableEq

/-- ProviderType enum from data_models.py. -/
inductive ProviderType where
  | GP
  | NP
  | RN
  | PSW
  | SPECIALIST
  | URGENT_CARE
  | ED
deriving DecidableEq

/-- StudentDecision enum from data_models.py. -/
inductive StudentDecision where
  | AGREE
  | MODIFY
  | DISAGREE
deriving DecidableEq

/-- Python truthiness of an `Optional[str]`: `None` and `""` are falsy. -/
def pyTruthyStr (o : Option String) : Bool :=
  match o with
  | none => false
  | some s => decide (s ≠ "")

/-- The string value of a UserRole enum member (it is a str-Enum in Python). -/
def UserRole.str : UserRole → String
  | .PATIENT => "PATIENT"
  | .MEDICAL_STUDENT => "MEDICAL_STUDENT"
  | .RESIDENT => "RESIDENT"
  | .ATTENDING_PHYSICIAN => "ATTENDING_PHYSICIAN"
  | .ADMIN => "ADMIN"

/-- One entry of `ConsultWorkflow.state_history` (a dict in Python). -/
structure HistoryEntry where
  state : WorkflowState
  timestamp : Nat
  triggered_by : String
  user_role : Option String
  metadata : Option (List (String × String))
deriving DecidableEq

/-- ConsultWorkflow model from data_models.py (timing fields as clock values). -/
structure ConsultWorkflow where
  consult_id : String
  patient_id : String
  current_state : WorkflowState
  state_history : List HistoryEntry
  transcript_id : String
  ai_output_id : Option String := none
  student_review_id : Option String := none
  patient_communication_id : Option String := none
  patient_response_id : Option String := none
  resident_review_id : Option String := none
  final_record_id : Option String := none
  routing_plan_id : Option String := none
  created_at : Nat
  updated_at : Nat
  completed_at : Option Nat := none
  is_escalated : Bool := false
  requires_immediate_attention : Bool := false
deriving DecidableEq

/-- Errors raised by the workflow engine: `PermissionError` (PermissionDenied)
and `ValueError` (InvalidTransition / invalid patient action), with the
ValueError message kept. -/
inductive WorkflowErr where
  | permissionDenied (role : UserRole) (fromS toS : WorkflowState)
  | valueError (msg : String)
deriving DecidableEq

/-- STATE_TRANSITION_PERMISSIONS from permissions.py, as the total lookup
performed by `PermissionChecker` (`dict.get` with `{}` / `[]` defaults). -/
def STATE_TRANSITION_PERMISSIONS : WorkflowState → UserRole → List WorkflowState
  | .INITIAL, .PATIENT => [.AI_PROCESSING]
  | .STUDENT_REVIEW, .MEDICAL_STUDENT => [.PATIENT_COMMUNICATION, .RESIDENT_ESCALATION]
  | .PATIENT_COMMUNICATION, .PATIENT =>
      [.PATIENT_ACCEPTED, .PATIENT_QUESTIONS, .RESIDENT_ESCALATION]
  | .PATIENT_QUESTIONS, .MEDICAL_STUDENT => [.PATIENT_COMMUNICATION, .RESIDENT_ESCALATION]
  | .RESIDENT_ESCALATION, .RESIDENT => [.FINAL_APPROVED]
  | .RESIDENT_ESCALATION, .ATTENDING_PHYSICIAN => [.FINAL_APPROVED]
  | _, _ => []

/-- PermissionChecker.can_transition_state from permissions.py. -/
def can_transition_state (user_role : UserRole) (from_state to_state : WorkflowState) : Bool :=
  decide (to_state ∈ STATE_TRANSITION_PERMISSIONS from_state user_role)

/-- WorkflowEngine._validate_transition together with the `_require_*`
helpers from workflow_engine.py; `none` means no validator fired. -/
def validate_transition (workflow : ConsultWorkflow) (new_state : WorkflowState) :
    Option WorkflowErr :=
  match new_state with
  | .STUDENT_REVIEW =>
      if pyTruthyStr workflow.ai_output_id then none
      else some (.valueError "AI output required before student review")
  | .PATIENT_COMMUNICATION =>
      if pyTruthyStr workflow.student_review_id then none
      else some (.valueError "Student review required before patient communication")
  | .RESIDENT_ESCALATION =>
      if pyTruthyStr workflow.student_review_id || pyTruthyStr workflow.patient_response_id
      then none
      else some (.valueError "Escalation requires student review or patient response")
  | .FINAL_APPROVED =>
      if pyTruthyStr workflow.patient_response_id || pyTruthyStr workflow.resident_review_id
      then none
      else some (.valueError "Final approval requires patient acceptance or resident decision")
  | .CARE_ROUTING =>
      if pyTruthyStr workflow.final_record_id then none
      else some (.valueError "Final SOAP record required before care routing")
  | _ => none

/-- WorkflowEngine.create_workflow from workflow_engine.py. -/
def create_workflow (consult_id patient_id transcript_id : String) (now : Nat) :
    ConsultWorkflow :=
  { consult_id := consult_id
    patient_id := patient_id
    transcript_id := transcript_id
    current_state := .INITIAL
    state_history := [{ state := .INITIAL, timestamp := now,
                        triggered_by := "system", user_role := none, metadata := none }]
    created_at := now
    updated_at := now }

/-- WorkflowEngine.transition_state from workflow_engine.py. The result is
(workflow object state after the call, raised error if any); both the
permission check and the validation run before any mutation, so on error the
object is returned unchanged. -/
def transition_state (workflow : ConsultWorkflow) (new_state : WorkflowState)
    (user_role : UserRole) (user_id : String)
    (metadata : Option (List (String × String))) (now : Nat) :
    ConsultWorkflow × Option WorkflowErr :=
  if ¬ can_transition_state user_role workflow.current_state new_state then
    (workflow, some (.permissionDenied user_role workflow.current_state new_state))
  else
    match validate_transition workflow new_state with
    | some e => (workflow, some e)
    | none =>
        let entry : HistoryEntry :=
          { state := new_state, timestamp := now, triggered_by := user_id,
            user_role := some user_role.str, metadata := metadata }
        ({ workflow with
            current_state := new_state
            updated_at := now
            state_history := workflow.state_history ++ [entry]
            completed_at := if new_state = .COMPLETE then some now
                            else workflow.completed_at },
         none)

/-- WorkflowEngine.auto_transition from workflow_engine.py: validation only,
no permission check. -/
def auto_transition (workflow : ConsultWorkflow) (new_state : WorkflowState) (now : Nat) :
    ConsultWorkflow × Option WorkflowErr :=
  match validate_transition workflow new_state with
  | some e => (workflow, some e)
  | none =>
      ({ workflow with
          current_state := new_state
          updated_at := now
          state_history := workflow.state_history ++
            [{ state := new_state, timestamp := now, triggered_by := "system_auto",
               user_role := some "system", metadata := none }]
          completed_at := if new_state = .COMPLETE then some now
                          else workflow.completed_at },
       none)

/-- WorkflowOrchestrator.handle_patient_response from workflow_engine.py.
The `patient_response_id` assignment happens before the action dispatch, so
it persists even when the action is invalid and a ValueError is raised. -/
def handle_patient_response (workflow : ConsultWorkflow)
    (response_id action patient_id : String) (now : Nat) :
    ConsultWorkflow × Option WorkflowErr :=
  let wf1 := { workflow with patient_response_id := some response_id }
  if action = "ACCEPT" then
    match transition_state wf1 .PATIENT_ACCEPTED .PATIENT patient_id none now with
    | (wf2, some e) => (wf2, some e)
    | (wf2, none) => auto_transition wf2 .FINAL_APPROVED now
  else if action = "QUESTION" then
    transition_state wf1 .PATIENT_QUESTIONS .PATIENT patient_id none now
  else if action = "ESCALATE" then
    let wf2 := { wf1 with is_escalated := true }
    transition_state wf2 .RESIDENT_ESCALATION .PATIENT patient_id
      (some [("reason", "patient_request")]) now
  else
    (wf1, some (.valueError ("Invalid patient action: " ++ action)))

/-- PatientData model from data_models.py (fields used by the routing engine). -/
structure PatientData where
  patient_id : String
  age : Int
  sex : String
  province : String
  postal_code : String
  has_family_doctor : Bool
  ohip_number : Option String := none
  phone : Option String := none
  email : Option String := none
deriving DecidableEq

/-- CareOption model from data_models.py. -/
structure CareOption where
  option_id : String
  provider_type : ProviderType
  facility_name : String
  address : String
  distance_km : ℚ
  estimated_wait_time : Option String := none
  accepts_walk_ins : Bool
  booking_url : Option String := none
  phone : Option String := none
  requires_referral : Bool
  referral_note_generated : Bool := false
  priority_score : ℚ
deriving DecidableEq

/-- CareRoutingPlan model from data_models.py. -/
structure CareRoutingPlan where
  routing_id : String
  consult_id : String
  patient_id : String
  recommended_options : List CareOption
  urgency_level : UrgencyLevel
  data_sources_used : List String
  data_freshness : Nat
  referral_note : Option String := none
  patient_summary : String
  generated_at : Nat
deriving DecidableEq

/-- One facility dict as returned by a government API client
(`facility.get` defaults from care_routing.py already applied to options). -/
structure Facility where
  id : String
  name : String
  address : String
  distance_km : ℚ
  wait_time : Option String := none
  walk_in : Bool := false
  booking_url : Option String := none
  phone : Option String := none
deriving DecidableEq

/-- An injected government API client (constructor argument of
CareRoutingEngine); the engine only calls these two methods. -/
structure GovernmentAPI where
  get_facilities : ProviderType → String → String → UrgencyLevel → List Facility
  get_data_sources : List String

/-- Python `str.split()` with no argument: split on whitespace runs,
dropping empty tokens (helper with an explicit accumulator). -/
def pySplitAux : List Char → List Char → List (List Char)
  | [], acc => if acc = [] then [] else [acc.reverse]
  | c :: rest, acc =>
      if c.isWhitespace then
        if acc = [] then pySplitAux rest []
        else acc.reverse :: pySplitAux rest []
      else pySplitAux rest (c :: acc)

/-- Python `str.split()` on a list of characters. -/
def pySplit (l : List Char) : List (List Char) :=
  pySplitAux l []

/-- Python `str.split(sep)` for a one-character separator: keeps empty parts. -/
def splitOnChar (sep : Char) : List Char → List (List Char)
  | [] => [[]]
  | c :: rest =>
      if c = sep then [] :: splitOnChar sep rest
      else
        match splitOnChar sep rest with
        | [] => [[c]]
        | t :: ts => (c :: t) :: ts

/-- Whether `needle` is a leading segment of `hay` (helper for `containsSub`). -/
def leadsWith : List Char → List Char → Bool
  | [], _ => true
  | _ :: _, [] => false
  | a :: as, b :: bs => a = b && leadsWith as bs

/-- Python `needle in hay` substring test on lists of characters. -/
def containsSub (needle : List Char) : List Char → Bool
  | [] => needle = []
  | c :: rest => leadsWith needle (c :: rest) || containsSub needle rest

/-- Value of a list of decimal digit characters (most significant first). -/
def digitsToNat (ds : List Char) : Nat :=
  ds.foldl (fun a c => 10 * a + (c.toNat - 48)) 0

/-- Python `float(token)` on an unsigned decimal numeral: digits with an
optional decimal point, at least one digit overall. (Exponent/inf/nan forms
of `float` are never produced by the wait-time strings considered.) -/
def parseFloatUnsigned (t : List Char) : Option ℚ :=
  match splitOnChar '.' t with
  | [ip] =>
      if ip ≠ [] ∧ ip.all Char.isDigit then some (digitsToNat ip) else none
  | [ip, fp] =>
      if (ip ++ fp) ≠ [] ∧ ip.all Char.isDigit ∧ fp.all Char.isDigit then
        some ((digitsToNat ip : ℚ) + (digitsToNat fp : ℚ) / (10 : ℚ) ^ fp.length)
      else none
  | _ => none

/-- Python `float(token)` with an optional leading sign. -/
def parseFloatQ (t : List Char) : Option ℚ :=
  match t with
  | [] => none
  | c :: rest =>
      if c = '-' then (parseFloatUnsigned rest).map (fun q => -q)
      else if c = '+' then parseFloatUnsigned rest
      else parseFloatUnsigned (c :: rest)

/-- The body of _parse_wait_time once the first whitespace token `t0` of the
lowered string `w` has been extracted: the try/except range block followed by
the try/except single-value block with the `return 999` fallback. -/
def parseWaitTok (w t0 : List Char) : Option ℚ :=
  let ranged : Option ℚ :=
    if containsSub ['-'] t0 then
      match splitOnChar '-' t0 with
      | [lo, hi] =>
          match parseFloatQ lo, parseFloatQ hi with
          | some l, some h =>
              let avg := (l + h) / 2
              if containsSub "minute".toList w then some (avg / 60)
              else if containsSub "hour".toList w then some avg
              else if containsSub "day".toList w then some (avg * 24)
              else if containsSub "week".toList w then some (avg * 24 * 7)
              else none
          | _, _ => none
      | _ => none
    else none
  match ranged with
  | some v => some v
  | none =>
      let single : Option ℚ :=
        if containsSub "minute".toList w then (parseFloatQ t0).map (fun q => q / 60)
        else if containsSub "hour".toList w then parseFloatQ t0
        else if containsSub "day".toList w then (parseFloatQ t0).map (fun q => q * 24)
        else if containsSub "week".toList w then (parseFloatQ t0).map (fun q => q * 24 * 7)
        else if containsSub "month".toList w then (parseFloatQ t0).map (fun q => q * 24 * 30)
        else none
      some (single.getD 999)

/-- CareRoutingEngine._parse_wait_time from care_routing.py on the lowered
character list; `none` models the uncaught IndexError of
`wait_time.split()[0]` on a whitespace-only string. -/
def parseWaitChars (w : List Char) : Option ℚ :=
  match pySplit w with
  | [] => none
  | t0 :: _ => parseWaitTok w t0

/-- CareRoutingEngine._parse_wait_time on a string
(the function lowercases its argument first). -/
def parse_wait_time (wait_time : String) : Option ℚ :=
  parseWaitChars (wait_time.toList.map Char.toLower)

/-- CareRoutingEngine._score_wait_time from care_routing.py; `none` models a
propagated parse exception, 15 is the neutral score for a missing or empty
wait-time string (Python `if not wait_time`). -/
def score_wait_time (wait_time : Option String) (urgency : UrgencyLevel) : Option ℚ :=
  if pyTruthyStr wait_time = false then some 15
  else
    match parse_wait_time (wait_time.getD "") with
    | none => none
    | some wait_hours =>
        let threshold : ℚ :=
          match urgency with
          | .EMERGENCY => 2
          | .URGENT => 48
          | .ROUTINE => 336
        if wait_hours ≤ threshold * (1 / 2) then some 30
        else if wait_hours ≤ threshold then some 25
        else if wait_hours ≤ threshold * 2 then some 15
        else some 5

/-- CareRoutingEngine._score_acuity from care_routing.py: the acuity matrix
with the `.get(..., 0)` fallbacks for unlisted pairs. -/
def score_acuity (provider_type : ProviderType) (urgency : UrgencyLevel) : ℚ :=
  match urgency, provider_type with
  | .EMERGENCY, .ED => 40
  | .EMERGENCY, .URGENT_CARE => 20
  | .EMERGENCY, .GP => 0
  | .EMERGENCY, .NP => 0
  | .EMERGENCY, .RN => 0
  | .EMERGENCY, .SPECIALIST => 0
  | .URGENT, .URGENT_CARE => 40
  | .URGENT, .GP => 35
  | .URGENT, .NP => 35
  | .URGENT, .ED => 15
  | .URGENT, .RN => 20
  | .URGENT, .SPECIALIST => 25
  | .ROUTINE, .GP => 40
  | .ROUTINE, .NP => 38
  | .ROUTINE, .SPECIALIST => 35
  | .ROUTINE, .RN => 30
  | .ROUTINE, .URGENT_CARE => 20
  | .ROUTINE, .ED => 0
  | _, _ => 0

/-- CareRoutingEngine._score_distance from care_routing.py. -/
def score_distance (distance_km : ℚ) : ℚ :=
  if distance_km ≤ 5 then 20
  else if distance_km ≤ 10 then 15
  else if distance_km ≤ 20 then 10
  else if distance_km ≤ 50 then 5
  else 2

/-- CareRoutingEngine._score_access from care_routing.py: sequential
adjustments followed by `max(0, score)`. -/
def score_access (option : CareOption) (patient : PatientData) : ℚ :=
  let s : ℚ := 0
  let s := if option.accepts_walk_ins then s + 5 else s
  let s := if pyTruthyStr option.booking_url then s + 3 else s
  let s := if patient.has_family_doctor ∧ option.provider_type = .GP then s + 7 else s
  let s := if option.requires_referral ∧ ¬ patient.has_family_doctor then s - 5 else s
  max 0 s

/-- One iteration of the scoring loop in CareRoutingEngine._rank_options:
the option with its `priority_score` computed, or `none` when the wait-time
scoring raised. -/
def score_option (urgency : UrgencyLevel) (patient : PatientData) (option : CareOption) :
    Option CareOption :=
  (score_wait_time option.estimated_wait_time urgency).map fun w =>
    { option with priority_score :=
        score_acuity option.provider_type urgency + w +
        score_distance option.distance_km + score_access option patient }

/-- The scoring loop of CareRoutingEngine._rank_options over the whole list;
`none` when any option's wait-time scoring raised. -/
def scoreAll (urgency : UrgencyLevel) (patient : PatientData) :
    List CareOption → Option (List CareOption)
  | [] => some []
  | o :: rest =>
      match score_option urgency patient o, scoreAll urgency patient rest with
      | some o', some r => some (o' :: r)
      | _, _ => none

/-- The ordering realised by Python's stable
`sorted(key=priority_score, reverse=True)` on index-tagged options:
strictly higher score first, equal scores in input-index order. -/
def optLE (a b : Nat × CareOption) : Prop :=
  b.2.priority_score < a.2.priority_score ∨
    (a.2.priority_score = b.2.priority_score ∧ a.1 ≤ b.1)

instance : DecidableRel optLE := fun a b => by
  unfold optLE
  infer_instance

/-- The sort step of CareRoutingEngine._rank_options on index-tagged scored
options (Python's `sorted` is stable, which is exactly a sort by `optLE`). -/
def rankIndexed (scored : List CareOption) : List (Nat × CareOption) :=
  List.insertionSort optLE scored.enum

/-- CareRoutingEngine._rank_options from care_routing.py. -/
def rank_options (options : List CareOption) (urgency : UrgencyLevel)
    (patient : PatientData) : Option (List CareOption) :=
  (scoreAll urgency patient options).map fun scored =>
    (rankIndexed scored).map Prod.snd

/-- CareRoutingEngine._requires_referral from care_routing.py. -/
def requires_referral (provider_type : ProviderType) : Bool :=
  decide (provider_type ∈ [ProviderType.SPECIALIST])

/-- CareRoutingEngine._generate_referral_note from care_routing.py
(the f-string assembled from its parameters). -/
def generate_referral_note (patient : PatientData) (clinical_summary : String) : String :=
  "REFERRAL REQUEST\n\nPatient: " ++ patient.patient_id ++
  "\nAge: " ++ toString patient.age ++ " | Sex: " ++ patient.sex ++
  "\nProvince: " ++ patient.province ++
  "\n\nREASON FOR REFERRAL:\n" ++ clinical_summary ++
  "\n\nCLINICAL SUMMARY:\nPatient requires specialist evaluation based on clinical decision support assessment.\n\nThis referral was generated through the Meduroam clinical decision support platform\nand has been reviewed by a medical professional.\n\nFor questions, please contact referring provider through the Meduroam platform.\n"

/-- CareRoutingEngine._get_available_options from care_routing.py. -/
def get_available_options (api : GovernmentAPI) (patient : PatientData)
    (approved_providers : List ProviderType) (urgency : UrgencyLevel) :
    List CareOption :=
  approved_providers.flatMap fun provider_type =>
    (api.get_facilities provider_type patient.postal_code patient.province urgency).map
      fun f =>
        { option_id := "opt_" ++ f.id
          provider_type := provider_type
          facility_name := f.name
          address := f.address
          distance_km := f.distance_km
          estimated_wait_time := f.wait_time
          accepts_walk_ins := f.walk_in
          booking_url := f.booking_url
          phone := f.phone
          requires_referral := requires_referral provider_type
          referral_note_generated := false
          priority_score := 0 }

/-- CareRoutingEngine.generate_routing_plan from care_routing.py; `none`
models a propagated scoring exception. -/
def generate_routing_plan (api : GovernmentAPI) (consult_id : String)
    (patient : PatientData) (urgency : UrgencyLevel)
    (approved_providers : List ProviderType) (clinical_summary : String) (now : Nat) :
    Option CareRoutingPlan :=
  let available_options := get_available_options api patient approved_providers urgency
  (rank_options available_options urgency patient).map fun ranked_options =>
    let referral_note :=
      if ProviderType.SPECIALIST ∈ approved_providers then
        some (generate_referral_note patient clinical_summary)
      else none
    { routing_id := "route_" ++ consult_id ++ "_" ++ toString now
      consult_id := consult_id
      patient_id := patient.patient_id
      recommended_options := ranked_options.take 5
      urgency_level := urgency
      data_sources_used := api.get_data_sources
      data_freshness := now
      referral_note := referral_note
      patient_summary := clinical_summary
      generated_at := now }

/-- SOAPNote model from data_models.py. -/
structure SOAPNote where
  subjective : String
  objective : String
  assessment : String
  plan : String
deriving DecidableEq

/-- StudentReview model from data_models.py. -/
structure StudentReview where
  review_id : String
  consult_id : String
  student_id : String
  student_name : String
  assessment_decision : StudentDecision
  validated_urgency : UrgencyLevel
  selected_providers : List ProviderType
  clinical_reasoning_summary : String
  key_differentials : List String
  red_flags_assessment : String
  provider_selection_rationale : String
  modified_soap : Option SOAPNote := none
  assessment_modifications : Option String := none
  plan_modifications : Option String := none
  requires_escalation : Bool
  escalation_reason : Option String := none
  reviewed_at : Nat
  time_spent_minutes : ℚ
deriving DecidableEq

/-- StudentDecisionRubric.validate_student_review from
student_decision_logic.py: the errors dict flattened to the ordered list of
(field key, message) violations it accumulates; the result is `[]` exactly
when the Python dict is empty. -/
def validate_student_review (review : StudentReview) : List (String × String) :=
  (if review.clinical_reasoning_summary.length < 50 then
    [("reasoning", "Clinical reasoning too brief - minimum 50 characters required")]
   else []) ++
  (if review.red_flags_assessment.length < 30 then
    [("reasoning", "Red flags assessment insufficient - minimum 30 characters required")]
   else []) ++
  (if review.provider_selection_rationale.length < 30 then
    [("reasoning", "Provider selection rationale insufficient - minimum 30 characters required")]
   else []) ++
  (if review.key_differentials = [] ∨ review.key_differentials.length < 2 then
    [("differentials", "Must consider at least 2 differential diagnoses")]
   else []) ++
  (if review.selected_providers = [] then
    [("providers", "Must select at least one provider type")]
   else []) ++
  (if review.assessment_decision = .DISAGREE ∧ review.modified_soap = none ∧
      pyTruthyStr review.assessment_modifications = false then
    [("modifications", "DISAGREE decision requires modified SOAP note or assessment modifications")]
   else []) ++
  (if review.requires_escalation = true ∧ pyTruthyStr review.escalation_reason = false then
    [("escalation", "Escalation requires explanation")]
   else []) ++
  (if review.validated_urgency = .EMERGENCY ∧ ProviderType.ED ∉ review.selected_providers then
    [("urgency_mismatch", "EMERGENCY urgency should include ED as provider option")]
   else [])

/-- The consultation history invariant: the current state equals the state
recorded in the last history entry. -/
def lastStateOk (wf : ConsultWorkflow) : Prop :=
  wf.state_history.getLast?.map HistoryEntry.state = some wf.current_state

/-- Whether an optional raised error is a ValueError (the InvalidTransition
family); PermissionError is not. -/
def isValueErrorOpt : Option WorkflowErr → Bool
  | some (.valueError _) => true
  | _ => false

/-- The ten decimal digit characters. -/
def digitList : List Char := ['0', '1', '2', '3', '4', '5', '6', '7', '8', '9']

/-- A freshly created workflow used to instantiate the general theorems. -/
def demoWf : ConsultWorkflow :=
  create_workflow "consult_1" "patient_1" "transcript_1" 0

/-- A concrete workflow sitting in the terminal COMPLETE state. -/
def wfComplete : ConsultWorkflow :=
  { consult_id := "consult_8"
    patient_id := "patient_8"
    transcript_id := "transcript_8"
    current_state := .COMPLETE
    state_history := [{ state := .COMPLETE, timestamp := 0,
                        triggered_by := "system", user_role := none, metadata := none }]
    created_at := 0
    updated_at := 0 }

/-- A GP care option accepting walk-ins and offering online booking. -/
def exOptionGP : CareOption :=
  { option_id := "opt_gp"
    provider_type := .GP
    facility_name := "Family Clinic"
    address := "1 Main St"
    distance_km := 1
    estimated_wait_time := some "1 day"
    accepts_walk_ins := true
    booking_url := some "https://example.com/book"
    phone := none
    requires_referral := false
    referral_note_generated := false
    priority_score := 0 }

/-- A patient with an established family doctor. -/
def exPatientFam : PatientData :=
  { patient_id := "p7"
    age := 30
    sex := "F"
    province := "ON"
    postal_code := "K7L 1A1"
    has_family_doctor := true }

/-- A student review satisfying every validation rule, with a
clinical-reasoning summary of exactly 50 characters. -/
def baseReview : StudentReview :=
  { review_id := "r1"
    consult_id := "c1"
    student_id := "s1"
    student_name := "Student One"
    assessment_decision := .AGREE
    validated_urgency := .ROUTINE
    selected_providers := [.GP]
    clinical_reasoning_summary := String.mk (List.replicate 50 'a')
    key_differentials := ["diff one", "diff two"]
    red_flags_assessment := String.mk (List.replicate 30 'b')
    provider_selection_rationale := String.mk (List.replicate 30 'c')
    requires_escalation := false
    reviewed_at := 0
    time_spent_minutes := 10 }

/-- The same review with the reasoning summary shortened to 49 characters. -/
def review49 : StudentReview :=
  { baseReview with clinical_reasoning_summary := String.mk (List.replicate 49 'a') }

/-- The same review with EMERGENCY urgency but only a GP selected. -/
def reviewEmergencyGP : StudentReview :=
  { baseReview with validated_urgency := .EMERGENCY, selected_providers := [.GP] }

/-- The same EMERGENCY review after adding ED to the selected providers. -/
def reviewEmergencyGPED : StudentReview :=
  { baseReview with validated_urgency := .EMERGENCY, selected_providers := [.GP, .ED] }

/-- A one-facility government API used to instantiate the routing theorems. -/
def demoApi : GovernmentAPI :=
  { get_facilities := fun _ _ _ _ =>
      [{ id := "uc_001"
         name := "Walk-In Clinic"
         address := "2 King St"
         distance_km := 3
         wait_time := none
         walk_in := true
         booking_url := none
         phone := none }]
    get_data_sources := ["Mock Provincial Health Database"] }

/-- A patient without a family doctor, for the routing witness. -/
def demoPatient : PatientData :=
  { patient_id := "p5"
    age := 22
    sex := "M"
    province := "ON"
    postal_code := "M5S 1A1"
    has_family_doctor := false }

instance : IsTotal (Nat × CareOption) optLE := by
  constructor
  intro a b
  unfold optLE
  rcases lt_trichotomy a.2.priority_score b.2.priority_score with h | h | h
  · exact Or.inr (Or.inl h)
  · rcases Nat.le_total a.1 b.1 with hi | hi
    · exact Or.inl (Or.inr ⟨h, hi⟩)
    · exact Or.inr (Or.inr ⟨h.symm, hi⟩)
  · exact Or.inl (Or.inl h)

instance : IsTrans (Nat × CareOption) optLE := by
  constructor
  intro a b c hab hbc
  unfold optLE at *
  rcases hab with h1 | ⟨h1, i1⟩
  · rcases hbc with h2 | ⟨h2, _⟩
    · exact Or.inl (h2.trans h1)
    · exact Or.inl (h2 ▸ h1)
  · rcases hbc with h2 | ⟨h2, i2⟩
    · exact Or.inl (h1 ▸ h2)
    · exact Or.inr ⟨h1.trans h2, i1.trans i2⟩

/-- After creation and after every successful transition the current state
equals the last history entry's state; failed calls leave the workflow
unchanged and no call ever shortens the history (claim C1). -/
theorem c1_state_history_invariant :
    (∀ cid pid tid now,
       lastStateOk (create_workflow cid pid tid now) ∧
       (create_workflow cid pid tid now).state_history.length = 1) ∧
    (∀ wf ns role uid md now,
       ((transition_state wf ns role uid md now).2.isSome →
          (transition_state wf ns role uid md now).1 = wf) ∧
       wf.state_history.length ≤
         (transition_state wf ns role uid md now).1.state_history.length ∧
       ((transition_state wf ns role uid md now).2 = none →
          (∃ e, (transition_state wf ns role uid md now).1.state_history =
                  wf.state_history ++ [e]) ∧
          lastStateOk (transition_state wf ns role uid md now).1)) ∧
    (∀ wf ns now,
       ((auto_transition wf ns now).2.isSome → (auto_transition wf ns now).1 = wf) ∧
       wf.state_history.length ≤ (auto_transition wf ns now).1.state_history.length ∧
       ((auto_transition wf ns now).2 = none →
          (∃ e, (auto_transition wf ns now).1.state_history =
                  wf.state_history ++ [e]) ∧
          lastStateOk (auto_transition wf ns now).1)) := by
  refine ⟨?_, ?_, ?_⟩
  · intro cid pid tid now
    exact ⟨rfl, rfl⟩
  · intro wf ns role uid md now
    unfold transition_state
    by_cases hperm : can_transition_state role wf.current_state ns = true
    · simp only [hperm, not_true_eq_false, if_false]
      cases hval : validate_transition wf ns with
      | some e => simp
      | none =>
          simp only [Option.isSome_none, Bool.false_eq_true, false_implies, true_and,
            List.length_append, List.length_cons, List.length_nil]
          refine ⟨by omega, fun _ => ⟨⟨_, rfl⟩, ?_⟩⟩
          simp [lastStateOk, List.getLast?_concat]
    · simp [hperm]
  · intro wf ns now
    unfold auto_transition
    cases hval : validate_transition wf ns with
    | some e => simp
    | none =>
        simp only [Option.isSome_none, Bool.false_eq_true, false_implies, true_and,
          List.length_append, List.length_cons, List.length_nil]
        refine ⟨by omega, fun _ => ⟨⟨_, rfl⟩, ?_⟩⟩
        simp [lastStateOk, List.getLast?_concat]

/-- Witness for C1: a concrete successful transition INITIAL → AI_PROCESSING
appends one entry and re-establishes the invariant. -/
theorem c1_state_history_invariant_witness :
    lastStateOk ((transition_state demoWf .AI_PROCESSING .PATIENT "u1" none 1).1) ∧
    (transition_state demoWf .AI_PROCESSING .PATIENT "u1" none 1).1.state_history.length = 2 := by
  have h := (c1_state_history_invariant.2.1 demoWf .AI_PROCESSING .PATIENT "u1" none 1).2.2
    (by decide)
  obtain ⟨⟨e, he⟩, hlast⟩ := h
  refine ⟨hlast, ?_⟩
  rw [he, List.length_append]
  simp only [List.length_cons, List.length_nil]
  decide

/-- A transition whose (state, target, role) triple is absent from the
policy table fails with PermissionError and leaves the consultation exactly
as it was (claim C2). -/
theorem c2_off_table_permission_denied :
    ∀ wf ns role uid md now,
      ns ∉ STATE_TRANSITION_PERMISSIONS wf.current_state role →
      transition_state wf ns role uid md now =
        (wf, some (.permissionDenied role wf.current_state ns)) := by
  intro wf ns role uid md now h
  unfold transition_state
  simp [can_transition_state, h]

/-- Witness for C2: ADMIN may not move a fresh workflow to COMPLETE. -/
theorem c2_off_table_permission_denied_witness :
    transition_state demoWf .COMPLETE .ADMIN "u1" none 1 =
      (demoWf, some (.permissionDenied .ADMIN demoWf.current_state .COMPLETE)) :=
  c2_off_table_permission_denied demoWf .COMPLETE .ADMIN "u1" none 1 (by decide)

/-- Amended C8: COMPLETE is terminal for every role-gated transition_state
call, which always fails with PermissionError leaving the workflow
unchanged (auto_transition, however, is not state-gated; see the
counterexample). -/
theorem c8_complete_terminal_for_transition_state :
    ∀ wf ns role uid md now, wf.current_state = .COMPLETE →
      transition_state wf ns role uid md now =
        (wf, some (.permissionDenied role .COMPLETE ns)) := by
  intro wf ns role uid md now h
  unfold transition_state
  rw [h]
  cases role <;> cases ns <;> simp [can_transition_state, STATE_TRANSITION_PERMISSIONS]

/-- Witness for C8: a COMPLETE workflow rejects an ATTENDING_PHYSICIAN
transition to FINAL_APPROVED. -/
theorem c8_complete_terminal_witness :
    transition_state wfComplete .FINAL_APPROVED .ATTENDING_PHYSICIAN "u1" none 1 =
      (wfComplete, some (.permissionDenied .ATTENDING_PHYSICIAN .COMPLETE .FINAL_APPROVED)) :=
  c8_complete_terminal_for_transition_state wfComplete .FINAL_APPROVED
    .ATTENDING_PHYSICIAN "u1" none 1 (by decide)

/-- Counterexample to C8 as stated: auto_transition moves a COMPLETE
workflow to AI_PROCESSING without error. -/
theorem c8_counterexample :
    (auto_transition wfComplete .AI_PROCESSING 1).2 = none ∧
    (auto_transition wfComplete .AI_PROCESSING 1).1.current_state ≠ .COMPLETE := by
  decide

/-- Amended C9: from INITIAL, a direct transition to CARE_ROUTING fails for
every actor role — but with PermissionError (the permission check precedes
the precondition validation), not InvalidTransition; the workflow is left
unchanged. -/
theorem c9_initial_to_care_routing_denied :
    ∀ wf role uid md now, wf.current_state = .INITIAL →
      transition_state wf .CARE_ROUTING role uid md now =
        (wf, some (.permissionDenied role .INITIAL .CARE_ROUTING)) := by
  intro wf role uid md now h
  unfold transition_state
  rw [h]
  cases role <;> simp [can_transition_state, STATE_TRANSITION_PERMISSIONS]

/-- Witness for C9: the concrete INITIAL workflow rejects PATIENT's direct
jump to CARE_ROUTING. -/
theorem c9_initial_to_care_routing_denied_witness :
    transition_state demoWf .CARE_ROUTING .PATIENT "u1" none 1 =
      (demoWf, some (.permissionDenied .PATIENT .INITIAL .CARE_ROUTING)) :=
  c9_initial_to_care_routing_denied demoWf .PATIENT "u1" none 1 (by decide)

/-- Counterexample to C9 as stated: the INITIAL → CARE_ROUTING failure is
not a ValueError (InvalidTransition) but a PermissionError. -/
theorem c9_counterexample :
    (transition_state demoWf .CARE_ROUTING .PATIENT "u1" none 1).2.isSome = true ∧
    isValueErrorOpt (transition_state demoWf .CARE_ROUTING .PATIENT "u1" none 1).2 = false := by
  decide

/-- An invalid patient action raises ValueError only after
`patient_response_id` has already been written; state and history are
untouched, and the recorded response id satisfies the FINAL_APPROVED and
RESIDENT_ESCALATION entry preconditions (claim C10). -/
theorem c10_invalid_action_mutates_before_raise :
    ∀ wf rid action pid now,
      action ≠ "ACCEPT" → action ≠ "QUESTION" → action ≠ "ESCALATE" →
      (handle_patient_response wf rid action pid now).1.patient_response_id = some rid ∧
      (handle_patient_response wf rid action pid now).1.current_state = wf.current_state ∧
      (handle_patient_response wf rid action pid now).1.state_history = wf.state_history ∧
      (handle_patient_response wf rid action pid now).2 =
        some (.valueError ("Invalid patient action: " ++ action)) ∧
      (rid ≠ "" →
        validate_transition (handle_patient_response wf rid action pid now).1
          .FINAL_APPROVED = none ∧
        validate_transition (handle_patient_response wf rid action pid now).1
          .RESIDENT_ESCALATION = none) := by
  intro wf rid action pid now h1 h2 h3
  have hred : handle_patient_response wf rid action pid now =
      ({ wf with patient_response_id := some rid },
       some (.valueError ("Invalid patient action: " ++ action))) := by
    unfold handle_patient_response
    rw [if_neg h1, if_neg h2, if_neg h3]
  rw [hred]
  refine ⟨rfl, rfl, rfl, rfl, fun hr => ?_⟩
  unfold validate_transition
  simp [pyTruthyStr, hr]

/-- Witness for C10: the invalid action "FOO" on the demo workflow. -/
theorem c10_invalid_action_witness :
    (handle_patient_response demoWf "resp_1" "FOO" "p1" 2).1.patient_response_id =
      some "resp_1" ∧
    (handle_patient_response demoWf "resp_1" "FOO" "p1" 2).1.current_state =
      demoWf.current_state ∧
    (handle_patient_response demoWf "resp_1" "FOO" "p1" 2).2 =
      some (.valueError "Invalid patient action: FOO") ∧
    validate_transition (handle_patient_response demoWf "resp_1" "FOO" "p1" 2).1
      .FINAL_APPROVED = none := by
  have h := c10_invalid_action_mutates_before_raise demoWf "resp_1" "FOO" "p1" 2
    (by decide) (by decide) (by decide)
  exact ⟨h.1, h.2.1, h.2.2.2.1, (h.2.2.2.2 (by decide)).1⟩

/-- The access score is the clamped sum of the documented adjustments, but
on a walk-in GP with online booking for a patient with a family doctor it
evaluates to 15, outside the documented 0–10 range (claim C7). -/
theorem c7_access_score_clamped_sum_and_overflow :
    (∀ (o : CareOption) (p : PatientData),
       score_access o p =
         max 0 ((if o.accepts_walk_ins then (5 : ℚ) else 0) +
                (if pyTruthyStr o.booking_url then 3 else 0) +
                (if p.has_family_doctor ∧ o.provider_type = .GP then 7 else 0) -
                (if o.requires_referral ∧ ¬ p.has_family_doctor then 5 else 0))) ∧
    score_access exOptionGP exPatientFam = 15 := by
  constructor
  · intro o p
    unfold score_access
    split_ifs <;> norm_num
  · unfold score_access
    norm_num [exOptionGP, exPatientFam, pyTruthyStr]
    rw [if_neg (by decide), show ((8 : ℚ) + 7) = 15 by norm_num]
    exact sup_eq_right.mpr (by norm_num)

/-- The student-review validation returns no violations exactly when every
rubric condition holds, with the 49/50-character boundary and the
EMERGENCY-without-ED mismatch behaving as specified (claim C4). -/
theorem c4_validate_student_review_iff :
    (∀ r : StudentReview,
       validate_student_review r = [] ↔
         (50 ≤ r.clinical_reasoning_summary.length ∧
          30 ≤ r.red_flags_assessment.length ∧
          30 ≤ r.provider_selection_rationale.length ∧
          2 ≤ r.key_differentials.length ∧
          r.selected_providers ≠ [] ∧
          (r.assessment_decision = .DISAGREE →
             r.modified_soap ≠ none ∨ pyTruthyStr r.assessment_modifications = true) ∧
          (r.requires_escalation = true → pyTruthyStr r.escalation_reason = true) ∧
          (r.validated_urgency = .EMERGENCY → ProviderType.ED ∈ r.selected_providers))) ∧
    validate_student_review baseReview = [] ∧
    validate_student_review review49 ≠ [] ∧
    ("urgency_mismatch", "EMERGENCY urgency should include ED as provider option") ∈
      validate_student_review reviewEmergencyGP ∧
    validate_student_review reviewEmergencyGPED = [] := by
  refine ⟨?_, by decide, by decide, by decide, by decide⟩
  intro r
  constructor
  · intro h
    simp only [validate_student_review, List.append_eq_nil, ite_eq_right_iff,
      reduceCtorEq, imp_false, not_lt, not_or, not_and, Bool.not_eq_true] at h
    refine ⟨?_, ?_, ?_, ?_, ?_, ?_, ?_, ?_⟩
    · tauto
    · tauto
    · tauto
    · by_contra hc
      tauto
    · by_contra hc
      tauto
    · intro hd
      by_contra hc
      push_neg at hc
      simp only [Bool.not_eq_true, not_not] at hc
      tauto
    · intro he
      by_contra hc
      simp only [Bool.not_eq_true] at hc
      tauto
    · intro hu
      by_contra hc
      tauto
  · intro h
    obtain ⟨h1, h2, h3, h4, h5, h6, h7, h8⟩ := h
    have hdf : ¬(r.key_differentials = [] ∨ r.key_differentials.length < 2) := by
      rintro (hnil | hlt)
      · rw [hnil] at h4
        simp at h4
      · omega
    have hmod : ¬(r.assessment_decision = .DISAGREE ∧ r.modified_soap = none ∧
        pyTruthyStr r.assessment_modifications = false) := by
      rintro ⟨ha, hb, hc⟩
      rcases h6 ha with hx | hx
      · exact hx hb
      · rw [hc] at hx
        cases hx
    have hesc : ¬(r.requires_escalation = true ∧
        pyTruthyStr r.escalation_reason = false) := by
      rintro ⟨ha, hb⟩
      rw [h7 ha] at hb
      cases hb
    have hurg : ¬(r.validated_urgency = .EMERGENCY ∧
        ProviderType.ED ∉ r.selected_providers) := by
      rintro ⟨ha, hb⟩
      exact hb (h8 ha)
    simp only [validate_student_review, List.append_eq_nil, ite_eq_right_iff,
      reduceCtorEq, imp_false, not_lt]
    exact ⟨⟨⟨⟨⟨⟨⟨h1, h2⟩, h3⟩, hdf⟩, h5⟩, hmod⟩, hesc⟩, hurg⟩

/-- Amended C3: a non-empty wait-time string that fails to parse is valued
at 999 hours and scores 5/30 for every urgency, without raising; the
neutral 15 is returned only for a missing or empty wait-time string. -/
theorem c3_unparsable_scores_five :
    (∀ (s : String) (u : UrgencyLevel),
       parse_wait_time s = some 999 → s ≠ "" →
       score_wait_time (some s) u = some 5) ∧
    (∀ u : UrgencyLevel,
       score_wait_time none u = some 15 ∧ score_wait_time (some "") u = some 15) := by
  constructor
  · intro s u hp hs
    have ht : pyTruthyStr (some s) = true := by simp [pyTruthyStr, hs]
    unfold score_wait_time
    cases u <;> simp [ht, hp] <;> norm_num
  · intro u
    cases u <;> exact ⟨by decide, by decide⟩

/-- Witness for C3 (amended): "banana" parses to 999 and scores 5 under
URGENT urgency. -/
theorem c3_unparsable_scores_five_witness :
    score_wait_time (some "banana") .URGENT = some 5 :=
  c3_unparsable_scores_five.1 "banana" .URGENT (by decide) (by decide)

/-- Counterexample to C3 as stated: the unparsable string "banana" does not
receive the neutral 15 (it scores 5). -/
theorem c3_counterexample :
    score_wait_time (some "banana") .ROUTINE ≠ some 15 ∧
    score_wait_time (some "banana") .ROUTINE = some 5 := by
  have hp : parse_wait_time "banana" = some 999 := by decide
  have ht : pyTruthyStr (some "banana") = true := by decide
  constructor
  all_goals
    unfold score_wait_time
    simp only [ht, Bool.true_eq_false, if_false, Option.getD_some, hp]
    norm_num

/-- A decimal digit character is non-whitespace, is none of the sign and
point characters, satisfies isDigit, and is fixed by toLower. -/
theorem digit_char_facts (c : Char) (h : c ∈ digitList) :
    c.isWhitespace = false ∧ c ≠ '-' ∧ c ≠ '.' ∧ c ≠ '+' ∧
    c.isDigit = true ∧ c.toLower = c := by
  fin_cases h <;>
    exact ⟨by decide, by decide, by decide, by decide, by decide, by decide⟩

/-- Lowercasing is the identity on digit strings. -/
theorem map_toLower_digits (ds : List Char) (hd : ∀ c ∈ ds, c ∈ digitList) :
    ds.map Char.toLower = ds := by
  induction ds with
  | nil => rfl
  | cons c cs ih =>
      simp only [List.map_cons]
      rw [(digit_char_facts c (hd c (List.mem_cons_self c cs))).2.2.2.2.2,
        ih fun x hx => hd x (List.mem_cons_of_mem c hx)]

/-- Splitting walks through a leading non-whitespace run by accumulating it. -/
theorem pySplitAux_append_nonws (ds : List Char)
    (hws : ∀ c ∈ ds, c.isWhitespace = false) (l acc : List Char) :
    pySplitAux (ds ++ l) acc = pySplitAux l (ds.reverse ++ acc) := by
  induction ds generalizing acc with
  | nil => simp
  | cons c cs ih =>
      have hc := hws c (List.mem_cons_self c cs)
      simp only [List.cons_append, pySplitAux, hc, Bool.false_eq_true, if_false,
        List.append_eq]
      rw [ih (fun x hx => hws x (List.mem_cons_of_mem c hx)) (c :: acc)]
      simp

/-- Python split() yields the leading non-whitespace token followed by the
split of the remainder. -/
theorem pySplit_token_space (ds rest : List Char) (hne : ds ≠ [])
    (hws : ∀ c ∈ ds, c.isWhitespace = false) :
    pySplit (ds ++ ' ' :: rest) = ds :: pySplit rest := by
  unfold pySplit
  rw [pySplitAux_append_nonws ds hws (' ' :: rest) []]
  have hsp : (' ').isWhitespace = true := by decide
  simp [pySplitAux, hsp, List.reverse_eq_nil_iff, hne]

/-- A substring of the right part is a substring of the whole. -/
theorem containsSub_append_left (n h l : List Char) (hc : containsSub n h = true) :
    containsSub n (l ++ h) = true := by
  induction l with
  | nil => simpa
  | cons c cs ih =>
      simp only [List.cons_append, containsSub, Bool.or_eq_true]
      exact Or.inr ih

/-- Every character of a leading segment occurs in the list. -/
theorem leadsWith_mem_all (n h : List Char) (hc : leadsWith n h = true) :
    ∀ x ∈ n, x ∈ h := by
  induction n generalizing h with
  | nil => intro x hx; cases hx
  | cons a as ih =>
      cases h with
      | nil => simp [leadsWith] at hc
      | cons b bs =>
          simp only [leadsWith, Bool.and_eq_true, decide_eq_true_eq] at hc
          intro x hx
          rcases List.mem_cons.mp hx with hx | hx
          · rw [hx, hc.1]; exact List.mem_cons_self b bs
          · exact List.mem_cons_of_mem b (ih bs hc.2 x hx)

/-- Every character of a substring occurs in the containing list. -/
theorem containsSub_mem_all (n h : List Char) (hc : containsSub n h = true) :
    ∀ x ∈ n, x ∈ h := by
  induction h with
  | nil =>
      simp only [containsSub, decide_eq_true_eq] at hc
      rw [hc]; intro x hx; cases hx
  | cons b bs ih =>
      simp only [containsSub, Bool.or_eq_true] at hc
      rcases hc with hc | hc
      · exact leadsWith_mem_all n (b :: bs) hc
      · exact fun x hx => List.mem_cons_of_mem b (ih hc x hx)

/-- A needle with a character missing from the haystack is not a substring. -/
theorem not_containsSub_of_missing (n h : List Char) (x : Char)
    (hxn : x ∈ n) (hxh : x ∉ h) : containsSub n h = false := by
  cases hc : containsSub n h with
  | false => rfl
  | true => exact absurd (containsSub_mem_all n h hc x hxn) hxh

/-- A character outside the digit set and outside the tail does not occur in
a digit string followed by that tail. -/
theorem not_mem_digits_concat (x : Char) (ds tail : List Char)
    (hd : ∀ c ∈ ds, c ∈ digitList) (hx : x ∉ digitList) (ht : x ∉ tail) :
    x ∉ ds ++ tail := by
  intro hmem
  rcases List.mem_append.mp hmem with h | h
  · exact hx (hd x h)
  · exact ht h

/-- Membership exclusion for a digits-dash-digits range token. -/
theorem not_mem_range_token (x : Char) (d1 d2 : List Char)
    (h1 : ∀ c ∈ d1, c ∈ digitList) (h2 : ∀ c ∈ d2, c ∈ digitList)
    (hx : x ∉ digitList) (hdx : x ≠ '-') : x ∉ d1 ++ '-' :: d2 := by
  intro hmem
  rcases List.mem_append.mp hmem with h | h
  · exact hx (h1 x h)
  · rcases List.mem_cons.mp h with h | h
    · exact hdx h
    · exact hx (h2 x h)

/-- A digits-dash-digits range token contains no whitespace. -/
theorem nonws_range_token (d1 d2 : List Char)
    (h1 : ∀ c ∈ d1, c ∈ digitList) (h2 : ∀ c ∈ d2, c ∈ digitList) :
    ∀ c ∈ d1 ++ '-' :: d2, c.isWhitespace = false := by
  intro c hc
  rcases List.mem_append.mp hc with h | h
  · exact (digit_char_facts c (h1 c h)).1
  · rcases List.mem_cons.mp h with h | h
    · rw [h]; decide
    · exact (digit_char_facts c (h2 c h)).1

/-- Splitting on an absent separator returns the whole list. -/
theorem splitOnChar_no_sep (sep : Char) (ds : List Char) (h : sep ∉ ds) :
    splitOnChar sep ds = [ds] := by
  induction ds with
  | nil => rfl
  | cons c cs ih =>
      have hc : ¬ c = sep := fun he => h (he ▸ List.mem_cons_self c cs)
      have hcs : sep ∉ cs := fun hmem => h (List.mem_cons_of_mem c hmem)
      simp only [splitOnChar]
      rw [if_neg hc, ih hcs]

/-- Splitting on the single separator occurrence yields the two sides. -/
theorem splitOnChar_mid (sep : Char) (d1 d2 : List Char)
    (h1 : sep ∉ d1) (h2 : sep ∉ d2) :
    splitOnChar sep (d1 ++ sep :: d2) = [d1, d2] := by
  induction d1 with
  | nil =>
      simp only [List.nil_append, splitOnChar, eq_self_iff_true, if_true]
      rw [splitOnChar_no_sep sep d2 h2]
  | cons c cs ih =>
      have hc : ¬ c = sep := fun he => h1 (he ▸ List.mem_cons_self c cs)
      have hcs : sep ∉ cs := fun hmem => h1 (List.mem_cons_of_mem c hmem)
      simp only [List.cons_append, splitOnChar, List.append_eq]
      rw [if_neg hc, ih hcs]

/-- Digit strings pass the all-digits test. -/
theorem all_isDigit_of_digitList (ds : List Char) (hd : ∀ c ∈ ds, c ∈ digitList) :
    ds.all Char.isDigit = true :=
  List.all_eq_true.mpr fun c hc => (digit_char_facts c (hd c hc)).2.2.2.2.1

/-- The numeral fold agrees with the standard base-10 digit valuation. -/
theorem digitsToNat_eq_ofDigits (ds : List Char) :
    digitsToNat ds = Nat.ofDigits 10 ((ds.map fun c => c.toNat - 48).reverse) := by
  induction ds using List.reverseRecOn with
  | nil => rfl
  | append_singleton l a ih =>
      unfold digitsToNat at *
      rw [List.foldl_append]
      simp only [List.foldl_cons, List.foldl_nil, List.map_append, List.map_cons,
        List.map_nil, List.reverse_append, List.reverse_cons, List.reverse_nil,
        List.nil_append, List.cons_append, Nat.ofDigits_cons]
      rw [← ih]
      ring

/-- The unsigned float parser evaluates a digit string to its numeral value. -/
theorem parseFloatUnsigned_digits (ds : List Char) (hne : ds ≠ [])
    (hd : ∀ c ∈ ds, c ∈ digitList) :
    parseFloatUnsigned ds = some ((digitsToNat ds : ℚ)) := by
  have hdot : ('.') ∉ ds := fun hmem => by
    have := hd '.' hmem
    simp [digitList] at this
  unfold parseFloatUnsigned
  rw [splitOnChar_no_sep '.' ds hdot]
  simp only []
  rw [if_pos ⟨hne, all_isDigit_of_digitList ds hd⟩]

/-- The float parser evaluates a digit string to its numeral value. -/
theorem parseFloatQ_digits (ds : List Char) (hne : ds ≠ [])
    (hd : ∀ c ∈ ds, c ∈ digitList) :
    parseFloatQ ds = some ((digitsToNat ds : ℚ)) := by
  cases ds with
  | nil => exact absurd rfl hne
  | cons c cs =>
      have hc := digit_char_facts c (hd c (List.mem_cons_self c cs))
      simp only [parseFloatQ]
      rw [if_neg hc.2.1, if_neg hc.2.2.2.1]
      exact parseFloatUnsigned_digits (c :: cs) (List.cons_ne_nil c cs) hd

/-- Membership exclusion for a range token followed by a tail. -/
theorem not_mem_range_concat (x : Char) (d1 d2 tail : List Char)
    (hd1 : ∀ c ∈ d1, c ∈ digitList) (hd2 : ∀ c ∈ d2, c ∈ digitList)
    (hx : x ∉ digitList) (hdx : x ≠ '-') (ht : x ∉ tail) :
    x ∉ (d1 ++ '-' :: d2) ++ tail := by
  intro hm
  rcases List.mem_append.mp hm with h | h
  · exact not_mem_range_token x d1 d2 hd1 hd2 hx hdx h
  · exact ht h

/-- The wait-time parser hands the leading token to the token body. -/
theorem parseWaitChars_token (ds rest : List Char) (hne : ds ≠ [])
    (hws : ∀ c ∈ ds, c.isWhitespace = false) :
    parseWaitChars (ds ++ ' ' :: rest) = parseWaitTok (ds ++ ' ' :: rest) ds := by
  unfold parseWaitChars
  rw [pySplit_token_space ds rest hne hws]

/-- Without a dash in the token, the body is the single-value block with the
999 fallback. -/
theorem parseWaitTok_no_range (w t0 : List Char)
    (hdash : containsSub ['-'] t0 = false) :
    parseWaitTok w t0 =
      some ((if containsSub "minute".toList w then (parseFloatQ t0).map (fun q => q / 60)
        else if containsSub "hour".toList w then parseFloatQ t0
        else if containsSub "day".toList w then (parseFloatQ t0).map (fun q => q * 24)
        else if containsSub "week".toList w then (parseFloatQ t0).map (fun q => q * 24 * 7)
        else if containsSub "month".toList w then (parseFloatQ t0).map (fun q => q * 24 * 30)
        else none).getD 999) := by
  unfold parseWaitTok
  rw [hdash]
  simp

/-- Parsing "N hours" for a digit string N. -/
theorem parse_single_hours (ds : List Char) (hne : ds ≠ [])
    (hd : ∀ c ∈ ds, c ∈ digitList) :
    parseWaitChars (ds ++ ' ' :: "hours".toList) = some ((digitsToNat ds : ℚ)) := by
  have hws : ∀ c ∈ ds, c.isWhitespace = false := fun c hc => (digit_char_facts c (hd c hc)).1
  rw [parseWaitChars_token ds _ hne hws,
    parseWaitTok_no_range _ _ (not_containsSub_of_missing _ _ '-' (by decide)
      (fun hm => absurd (hd '-' hm) (by decide)))]
  have hmin : containsSub "minute".toList (ds ++ ' ' :: "hours".toList) = false :=
    not_containsSub_of_missing _ _ 'm' (by decide)
      (not_mem_digits_concat 'm' ds _ hd (by decide) (by decide))
  have hhour : containsSub "hour".toList (ds ++ ' ' :: "hours".toList) = true :=
    containsSub_append_left _ _ ds (by decide)
  simp_all [parseFloatQ_digits ds hne hd]

/-- Parsing "N days" for a digit string N. -/
theorem parse_single_days (ds : List Char) (hne : ds ≠ [])
    (hd : ∀ c ∈ ds, c ∈ digitList) :
    parseWaitChars (ds ++ ' ' :: "days".toList) = some ((digitsToNat ds : ℚ) * 24) := by
  have hws : ∀ c ∈ ds, c.isWhitespace = false := fun c hc => (digit_char_facts c (hd c hc)).1
  rw [parseWaitChars_token ds _ hne hws,
    parseWaitTok_no_range _ _ (not_containsSub_of_missing _ _ '-' (by decide)
      (fun hm => absurd (hd '-' hm) (by decide)))]
  have hmin : containsSub "minute".toList (ds ++ ' ' :: "days".toList) = false :=
    not_containsSub_of_missing _ _ 'm' (by decide)
      (not_mem_digits_concat 'm' ds _ hd (by decide) (by decide))
  have hhour : containsSub "hour".toList (ds ++ ' ' :: "days".toList) = false :=
    not_containsSub_of_missing _ _ 'h' (by decide)
      (not_mem_digits_concat 'h' ds _ hd (by decide) (by decide))
  have hday : containsSub "day".toList (ds ++ ' ' :: "days".toList) = true :=
    containsSub_append_left _ _ ds (by decide)
  simp_all [parseFloatQ_digits ds hne hd]

/-- Parsing "N weeks" for a digit string N. -/
theorem parse_single_weeks (ds : List Char) (hne : ds ≠ [])
    (hd : ∀ c ∈ ds, c ∈ digitList) :
    parseWaitChars (ds ++ ' ' :: "weeks".toList) =
      some ((digitsToNat ds : ℚ) * 24 * 7) := by
  have hws : ∀ c ∈ ds, c.isWhitespace = false := fun c hc => (digit_char_facts c (hd c hc)).1
  rw [parseWaitChars_token ds _ hne hws,
    parseWaitTok_no_range _ _ (not_containsSub_of_missing _ _ '-' (by decide)
      (fun hm => absurd (hd '-' hm) (by decide)))]
  have hmin : containsSub "minute".toList (ds ++ ' ' :: "weeks".toList) = false :=
    not_containsSub_of_missing _ _ 'm' (by decide)
      (not_mem_digits_concat 'm' ds _ hd (by decide) (by decide))
  have hhour : containsSub "hour".toList (ds ++ ' ' :: "weeks".toList) = false :=
    not_containsSub_of_missing _ _ 'h' (by decide)
      (not_mem_digits_concat 'h' ds _ hd (by decide) (by decide))
  have hday : containsSub "day".toList (ds ++ ' ' :: "weeks".toList) = false :=
    not_containsSub_of_missing _ _ 'd' (by decide)
      (not_mem_digits_concat 'd' ds _ hd (by decide) (by decide))
  have hweek : containsSub "week".toList (ds ++ ' ' :: "weeks".toList) = true :=
    containsSub_append_left _ _ ds (by decide)
  simp_all [parseFloatQ_digits ds hne hd]

/-- Parsing "N months" for a digit string N. -/
theorem parse_single_months (ds : List Char) (hne : ds ≠ [])
    (hd : ∀ c ∈ ds, c ∈ digitList) :
    parseWaitChars (ds ++ ' ' :: "months".toList) =
      some ((digitsToNat ds : ℚ) * 24 * 30) := by
  have hws : ∀ c ∈ ds, c.isWhitespace = false := fun c hc => (digit_char_facts c (hd c hc)).1
  rw [parseWaitChars_token ds _ hne hws,
    parseWaitTok_no_range _ _ (not_containsSub_of_missing _ _ '-' (by decide)
      (fun hm => absurd (hd '-' hm) (by decide)))]
  have hmin : containsSub "minute".toList (ds ++ ' ' :: "months".toList) = false :=
    not_containsSub_of_missing _ _ 'i' (by decide)
      (not_mem_digits_concat 'i' ds _ hd (by decide) (by decide))
  have hhour : containsSub "hour".toList (ds ++ ' ' :: "months".toList) = false :=
    not_containsSub_of_missing _ _ 'u' (by decide)
      (not_mem_digits_concat 'u' ds _ hd (by decide) (by decide))
  have hday : containsSub "day".toList (ds ++ ' ' :: "months".toList) = false :=
    not_containsSub_of_missing _ _ 'd' (by decide)
      (not_mem_digits_concat 'd' ds _ hd (by decide) (by decide))
  have hweek : containsSub "week".toList (ds ++ ' ' :: "months".toList) = false :=
    not_containsSub_of_missing _ _ 'w' (by decide)
      (not_mem_digits_concat 'w' ds _ hd (by decide) (by decide))
  have hmonth : containsSub "month".toList (ds ++ ' ' :: "months".toList) = true :=
    containsSub_append_left _ _ ds (by decide)
  simp_all [parseFloatQ_digits ds hne hd]

/-- Lowercasing is the identity on a digits-dash-digits range token. -/
theorem map_toLower_range (d1 d2 : List Char)
    (hd1 : ∀ c ∈ d1, c ∈ digitList) (hd2 : ∀ c ∈ d2, c ∈ digitList) :
    (d1 ++ '-' :: d2).map Char.toLower = d1 ++ '-' :: d2 := by
  rw [List.map_append, map_toLower_digits d1 hd1, List.map_cons,
    show ('-').toLower = '-' from by decide, map_toLower_digits d2 hd2]

/-- Parsing the range "N-M hours" to the midpoint. -/
theorem parse_range_hours (d1 d2 : List Char) (h1 : d1 ≠ []) (h2 : d2 ≠ [])
    (hd1 : ∀ c ∈ d1, c ∈ digitList) (hd2 : ∀ c ∈ d2, c ∈ digitList) :
    parseWaitChars ((d1 ++ '-' :: d2) ++ ' ' :: "hours".toList) =
      some (((digitsToNat d1 : ℚ) + (digitsToNat d2 : ℚ)) / 2) := by
  have htne : d1 ++ '-' :: d2 ≠ [] := by cases d1 <;> simp
  rw [parseWaitChars_token _ _ htne (nonws_range_token d1 d2 hd1 hd2)]
  unfold parseWaitTok
  have hdash : containsSub ['-'] (d1 ++ '-' :: d2) = true :=
    containsSub_append_left _ _ d1 (by simp [containsSub, leadsWith])
  rw [hdash, splitOnChar_mid '-' d1 d2 (fun hm => absurd (hd1 '-' hm) (by decide))
      (fun hm => absurd (hd2 '-' hm) (by decide))]
  dsimp only
  rw [parseFloatQ_digits d1 h1 hd1, parseFloatQ_digits d2 h2 hd2]
  have hmin : containsSub "minute".toList
      ((d1 ++ '-' :: d2) ++ ' ' :: "hours".toList) = false :=
    not_containsSub_of_missing _ _ 'm' (by decide)
      (not_mem_range_concat 'm' d1 d2 _ hd1 hd2 (by decide) (by decide) (by decide))
  have hhour : containsSub "hour".toList
      ((d1 ++ '-' :: d2) ++ ' ' :: "hours".toList) = true :=
    containsSub_append_left _ _ _ (by decide)
  simp_all

/-- Parsing the range "N-M days" to the midpoint times 24. -/
theorem parse_range_days (d1 d2 : List Char) (h1 : d1 ≠ []) (h2 : d2 ≠ [])
    (hd1 : ∀ c ∈ d1, c ∈ digitList) (hd2 : ∀ c ∈ d2, c ∈ digitList) :
    parseWaitChars ((d1 ++ '-' :: d2) ++ ' ' :: "days".toList) =
      some (((digitsToNat d1 : ℚ) + (digitsToNat d2 : ℚ)) / 2 * 24) := by
  have htne : d1 ++ '-' :: d2 ≠ [] := by cases d1 <;> simp
  rw [parseWaitChars_token _ _ htne (nonws_range_token d1 d2 hd1 hd2)]
  unfold parseWaitTok
  have hdash : containsSub ['-'] (d1 ++ '-' :: d2) = true :=
    containsSub_append_left _ _ d1 (by simp [containsSub, leadsWith])
  rw [hdash, splitOnChar_mid '-' d1 d2 (fun hm => absurd (hd1 '-' hm) (by decide))
      (fun hm => absurd (hd2 '-' hm) (by decide))]
  dsimp only
  rw [parseFloatQ_digits d1 h1 hd1, parseFloatQ_digits d2 h2 hd2]
  have hmin : containsSub "minute".toList
      ((d1 ++ '-' :: d2) ++ ' ' :: "days".toList) = false :=
    not_containsSub_of_missing _ _ 'm' (by decide)
      (not_mem_range_concat 'm' d1 d2 _ hd1 hd2 (by decide) (by decide) (by decide))
  have hhour : containsSub "hour".toList
      ((d1 ++ '-' :: d2) ++ ' ' :: "days".toList) = false :=
    not_containsSub_of_missing _ _ 'h' (by decide)
      (not_mem_range_concat 'h' d1 d2 _ hd1 hd2 (by decide) (by decide) (by decide))
  have hday : containsSub "day".toList
      ((d1 ++ '-' :: d2) ++ ' ' :: "days".toList) = true :=
    containsSub_append_left _ _ _ (by decide)
  simp_all

/-- Parsing the range "N-M weeks" to the midpoint times 168. -/
theorem parse_range_weeks (d1 d2 : List Char) (h1 : d1 ≠ []) (h2 : d2 ≠ [])
    (hd1 : ∀ c ∈ d1, c ∈ digitList) (hd2 : ∀ c ∈ d2, c ∈ digitList) :
    parseWaitChars ((d1 ++ '-' :: d2) ++ ' ' :: "weeks".toList) =
      some (((digitsToNat d1 : ℚ) + (digitsToNat d2 : ℚ)) / 2 * 24 * 7) := by
  have htne : d1 ++ '-' :: d2 ≠ [] := by cases d1 <;> simp
  rw [parseWaitChars_token _ _ htne (nonws_range_token d1 d2 hd1 hd2)]
  unfold parseWaitTok
  have hdash : containsSub ['-'] (d1 ++ '-' :: d2) = true :=
    containsSub_append_left _ _ d1 (by simp [containsSub, leadsWith])
  rw [hdash, splitOnChar_mid '-' d1 d2 (fun hm => absurd (hd1 '-' hm) (by decide))
      (fun hm => absurd (hd2 '-' hm) (by decide))]
  dsimp only
  rw [parseFloatQ_digits d1 h1 hd1, parseFloatQ_digits d2 h2 hd2]
  have hmin : containsSub "minute".toList
      ((d1 ++ '-' :: d2) ++ ' ' :: "weeks".toList) = false :=
    not_containsSub_of_missing _ _ 'm' (by decide)
      (not_mem_range_concat 'm' d1 d2 _ hd1 hd2 (by decide) (by decide) (by decide))
  have hhour : containsSub "hour".toList
      ((d1 ++ '-' :: d2) ++ ' ' :: "weeks".toList) = false :=
    not_containsSub_of_missing _ _ 'h' (by decide)
      (not_mem_range_concat 'h' d1 d2 _ hd1 hd2 (by decide) (by decide) (by decide))
  have hday : containsSub "day".toList
      ((d1 ++ '-' :: d2) ++ ' ' :: "weeks".toList) = false :=
    not_containsSub_of_missing _ _ 'd' (by decide)
      (not_mem_range_concat 'd' d1 d2 _ hd1 hd2 (by decide) (by decide) (by decide))
  have hweek : containsSub "week".toList
      ((d1 ++ '-' :: d2) ++ ' ' :: "weeks".toList) = true :=
    containsSub_append_left _ _ _ (by decide)
  simp_all

/-- Amended C6: the wait-time parser maps "N hours" to N, "N days" to N·24,
"N weeks" to N·168, "N months" to N·720, and ranges "N-M hours/days/weeks"
to the midpoint converted with the unit factor ("2-4 hours" to 3 and
"1 week" to 168 in particular); a month range is NOT supported (see the
counterexample). `digitsToNat` is the standard base-10 numeral value. -/
theorem c6_wait_time_parse_rules :
    (∀ ds : List Char,
       digitsToNat ds = Nat.ofDigits 10 ((ds.map fun c => c.toNat - 48).reverse)) ∧
    (∀ ds : List Char, ds ≠ [] → (∀ c ∈ ds, c ∈ digitList) →
       parse_wait_time (String.mk (ds ++ ' ' :: "hours".toList)) =
         some ((digitsToNat ds : ℚ)) ∧
       parse_wait_time (String.mk (ds ++ ' ' :: "days".toList)) =
         some ((digitsToNat ds : ℚ) * 24) ∧
       parse_wait_time (String.mk (ds ++ ' ' :: "weeks".toList)) =
         some ((digitsToNat ds : ℚ) * 24 * 7) ∧
       parse_wait_time (String.mk (ds ++ ' ' :: "months".toList)) =
         some ((digitsToNat ds : ℚ) * 24 * 30)) ∧
    (∀ d1 d2 : List Char, d1 ≠ [] → d2 ≠ [] →
       (∀ c ∈ d1, c ∈ digitList) → (∀ c ∈ d2, c ∈ digitList) →
       parse_wait_time (String.mk ((d1 ++ '-' :: d2) ++ ' ' :: "hours".toList)) =
         some (((digitsToNat d1 : ℚ) + (digitsToNat d2 : ℚ)) / 2) ∧
       parse_wait_time (String.mk ((d1 ++ '-' :: d2) ++ ' ' :: "days".toList)) =
         some (((digitsToNat d1 : ℚ) + (digitsToNat d2 : ℚ)) / 2 * 24) ∧
       parse_wait_time (String.mk ((d1 ++ '-' :: d2) ++ ' ' :: "weeks".toList)) =
         some (((digitsToNat d1 : ℚ) + (digitsToNat d2 : ℚ)) / 2 * 24 * 7)) ∧
    parse_wait_time "2-4 hours" = some 3 ∧
    parse_wait_time "1 week" = some 168 := by
  refine ⟨digitsToNat_eq_ofDigits, ?_, ?_, ?_, ?_⟩
  · intro ds hne hd
    have key : ∀ tail : List Char, tail.map Char.toLower = tail →
        parse_wait_time (String.mk (ds ++ tail)) = parseWaitChars (ds ++ tail) := by
      intro tail htail
      unfold parse_wait_time
      rw [show (String.mk (ds ++ tail)).toList = ds ++ tail from rfl, List.map_append,
        map_toLower_digits ds hd, htail]
    exact ⟨by rw [key _ (by decide)]; exact parse_single_hours ds hne hd,
      by rw [key _ (by decide)]; exact parse_single_days ds hne hd,
      by rw [key _ (by decide)]; exact parse_single_weeks ds hne hd,
      by rw [key _ (by decide)]; exact parse_single_months ds hne hd⟩
  · intro d1 d2 h1 h2 hd1 hd2
    have key : ∀ tail : List Char, tail.map Char.toLower = tail →
        parse_wait_time (String.mk ((d1 ++ '-' :: d2) ++ tail)) =
          parseWaitChars ((d1 ++ '-' :: d2) ++ tail) := by
      intro tail htail
      unfold parse_wait_time
      rw [show (String.mk ((d1 ++ '-' :: d2) ++ tail)).toList =
            (d1 ++ '-' :: d2) ++ tail from rfl,
        List.map_append, map_toLower_range d1 d2 hd1 hd2, htail]
    exact ⟨by rw [key _ (by decide)]; exact parse_range_hours d1 d2 h1 h2 hd1 hd2,
      by rw [key _ (by decide)]; exact parse_range_days d1 d2 h1 h2 hd1 hd2,
      by rw [key _ (by decide)]; exact parse_range_weeks d1 d2 h1 h2 hd1 hd2⟩
  · have h := parse_range_hours ['2'] ['4'] (by decide) (by decide)
      (fun c hc => by fin_cases hc <;> decide) (fun c hc => by fin_cases hc <;> decide)
    have hw : "2-4 hours".toList.map Char.toLower =
        (['2'] ++ '-' :: ['4']) ++ ' ' :: "hours".toList := by decide
    unfold parse_wait_time
    rw [hw, h, show digitsToNat ['2'] = 2 from by decide,
      show digitsToNat ['4'] = 4 from by decide]
    norm_num
  · unfold parse_wait_time
    rw [show "1 week".toList.map Char.toLower = ['1'] ++ ' ' :: "week".toList from by decide,
      parseWaitChars_token ['1'] _ (by decide) (fun c hc => by fin_cases hc <;> decide),
      parseWaitTok_no_range _ _ (by decide),
      show containsSub "minute".toList (['1'] ++ ' ' :: "week".toList) = false from by decide,
      show containsSub "hour".toList (['1'] ++ ' ' :: "week".toList) = false from by decide,
      show containsSub "day".toList (['1'] ++ ' ' :: "week".toList) = false from by decide,
      show containsSub "week".toList (['1'] ++ ' ' :: "week".toList) = true from by decide,
      parseFloatQ_digits ['1'] (by decide) (fun c hc => by fin_cases hc <;> decide),
      show digitsToNat ['1'] = 1 from by decide]
    norm_num

/-- Witness for C6 (amended): "5 days" parses to 120 hours. -/
theorem c6_wait_time_parse_rules_witness : parse_wait_time "5 days" = some 120 := by
  have h := (c6_wait_time_parse_rules.2.1 ['5'] (by decide)
    (fun c hc => by fin_cases hc <;> decide)).2.1
  rw [show ("5 days" : String) = String.mk (['5'] ++ ' ' :: "days".toList) from by decide]
  rw [h, show digitsToNat ['5'] = 5 from by decide]
  norm_num

/-- Counterexample to C6 as stated: the month range "2-4 months" does not
parse to the midpoint times 720; it falls through to the unknown value 999. -/
theorem c6_counterexample :
    parse_wait_time "2-4 months" = some 999 ∧
    parse_wait_time "2-4 months" ≠ some (((2 : ℚ) + 4) / 2 * (24 * 30)) := by
  have h : parse_wait_time "2-4 months" = some 999 := by decide
  refine ⟨h, ?_⟩
  rw [h]
  simp only [ne_eq, Option.some.injEq]
  norm_num

/-- The routing plan's recommended options are the scored candidates in
descending priority-score order with ties kept in input order (the sorted
index-tagged list is ordered by `optLE`), truncated to at most 5
(claim C5). -/
theorem c5_routing_plan_ranked :
    ∀ (api : GovernmentAPI) (consult_id : String) (patient : PatientData)
      (urgency : UrgencyLevel) (approved : List ProviderType)
      (summary : String) (now : Nat) (scored : List CareOption),
      scoreAll urgency patient (get_available_options api patient approved urgency) =
        some scored →
      ∃ plan, generate_routing_plan api consult_id patient urgency approved summary now =
          some plan ∧
        plan.recommended_options = ((rankIndexed scored).map Prod.snd).take 5 ∧
        (rankIndexed scored).Perm scored.enum ∧
        List.Sorted optLE (rankIndexed scored) ∧
        plan.recommended_options.length ≤ 5 := by
  intro api consult_id patient urgency approved summary now scored hs
  have hrank : rank_options (get_available_options api patient approved urgency)
      urgency patient = some ((rankIndexed scored).map Prod.snd) := by
    unfold rank_options
    rw [hs]
    rfl
  unfold generate_routing_plan
  dsimp only
  rw [hrank]
  refine ⟨_, rfl, rfl, ?_, ?_, ?_⟩
  · exact List.perm_insertionSort optLE scored.enum
  · exact List.sorted_insertionSort optLE scored.enum
  · exact List.length_take_le 5 _

/-- Witness for C5: the plan for an empty approved-provider list exists and
is within the 5-option cap. -/
theorem c5_routing_plan_ranked_witness :
    ∃ plan, generate_routing_plan demoApi "c5" demoPatient .ROUTINE [] "s" 0 =
        some plan ∧ plan.recommended_options.length ≤ 5 := by
  obtain ⟨plan, hgen, _, _, _, hlen⟩ :=
    c5_routing_plan_ranked demoApi "c5" demoPatient .ROUTINE [] "s" 0 [] (by rfl)
  exact ⟨plan, hgen, hlen⟩
